import Mathlib

/-!
Shallow embedding of the geometry rendering component
(`GeometryRenderer`, source file `part_002`) of the `alisyos/diagram`
repository, together with theorems checking the natural-language
specification against it.  JavaScript IEEE-754 numbers are modelled as
real numbers (`ℝ`) except where a sub-component is purely rational, in
which case `ℚ` is used so that statements stay decidable.
-/

namespace GeometryRenderer

/-- `Point` record (`part_002` lines 4-9): coordinates, label and an
optional visibility flag (`undefined` is modelled as `none`). -/
structure Point where
  x : ℝ
  y : ℝ
  label : String
  visible : Option Bool := none

/-- `Line` record (`part_002` lines 11-17): two point labels used as
foreign keys plus optional display fields. -/
structure Line where
  start : String
  «end» : String
  length : Option ℝ := none
  showLength : Option Bool := none
  showLengthArc : Option Bool := none

/-- `Angle` record (`part_002` lines 19-26). -/
structure Angle where
  vertex : String
  start : String
  «end» : String
  value : ℝ
  showValue : Bool
  rotation : Option ℝ := none

/-- `Circle` record (`part_002` lines 28-39). -/
structure Circle where
  center : String
  radius : ℝ
  showRadius : Option Bool := none
  showRadiusArc : Option Bool := none
  startAngle : Option ℝ := none
  endAngle : Option ℝ := none
  showArc : Option Bool := none
  fillArc : Option Bool := none
  startPoint : Option String := none
  endPoint : Option String := none

/-- The `xRange` field of a `Curve` (`part_002` lines 44-47). -/
structure XRange where
  min : ℝ
  max : ℝ

/-- `Curve` record (`part_002` lines 41-49).  `type` is a plain string in
the source (`'linear' | 'quadratic' | 'logarithm' | 'exponential'`), and
`points` is the requested sample count. -/
structure Curve where
  type : String
  base : Option ℝ := none
  coefficient : Option ℝ := none
  xRange : XRange
  points : ℕ

/-- `GeometryData` record (`part_002` lines 51-57): the whole scene. -/
structure GeometryData where
  points : List Point
  lines : List Line
  angles : List Angle
  circles : List Circle
  curves : List Curve

/-- JavaScript `curve.coefficient || 1`: `undefined` and `0` are falsy,
so both default to `1`. -/
noncomputable def coefD (c : Curve) : ℝ :=
  match c.coefficient with
  | none => 1
  | some v => if v = 0 then 1 else v

/-- JavaScript `curve.base || Math.E`: `undefined` and `0` default to
Euler's number. -/
noncomputable def baseD (c : Curve) : ℝ :=
  match c.base with
  | none => Real.exp 1
  | some v => if v = 0 then Real.exp 1 else v

/-- JavaScript `curve.points || 100` (`0` is falsy). -/
def numPointsD (c : Curve) : ℕ :=
  if c.points = 0 then 100 else c.points

/-- The `switch (curve.type)` of `generateCurvePoints` (`part_002` lines
74-92): `y` starts at `0` and is only overwritten in the four known
cases; in the `logarithm` case only when `x > 0` (so `x ≤ 0` keeps
`y = 0` there).  Note that in this helper the `logarithm` and
`exponential` branches do not use the coefficient. -/
noncomputable def curveYgen (c : Curve) (x : ℝ) : ℝ :=
  if c.type = "logarithm" then
    (if 0 < x then Real.log x / Real.log (baseD c) else 0)
  else if c.type = "exponential" then
    Real.rpow (baseD c) x
  else if c.type = "linear" then
    coefD c * x
  else if c.type = "quadratic" then
    coefD c * x * x
  else 0

/-- `generateCurvePoints` (`part_002` lines 66-100): `numPoints` samples
at `x = min + i·step` for `i = 0,…,numPoints-1` with
`step = (max-min)/(numPoints-1)`, each pushed with an empty label. -/
noncomputable def generateCurvePoints (c : Curve) : List Point :=
  let numPoints := numPointsD c
  let step := (c.xRange.max - c.xRange.min) / ((numPoints : ℝ) - 1)
  (List.range numPoints).map fun i =>
    { x := c.xRange.min + (i : ℝ) * step
      y := curveYgen c (c.xRange.min + (i : ℝ) * step)
      label := "" }

/-- The step used by the inline curve render loop and the bounds loop
(`part_002` lines 731, 1019): `(max - min) / (curve.points || 100)` —
unlike `generateCurvePoints` there is no `- 1`. -/
noncomputable def renderStep (c : Curve) : ℝ :=
  (c.xRange.max - c.xRange.min) / (numPointsD c : ℝ)

/-- The `x` values visited by `for (let x = min; x <= max; x += step)`
(`part_002` line 1021) under exact real arithmetic: when `0 < step` and
`min ≤ max` these are `min + i·step` for `i = 0, …, ⌊(max-min)/step⌋`.
When `max < min` the loop body never runs; when `step ≤ 0 ∧ min ≤ max`
the source loop never terminates and emits no finished sample list, so
that case is modelled as the empty list as well. -/
noncomputable def renderLoopXs (mn mx step : ℝ) : List ℝ :=
  if 0 < step ∧ mn ≤ mx then
    (List.range (⌊(mx - mn) / step⌋.toNat + 1)).map fun i => mn + (i : ℝ) * step
  else []

/-- The `switch (curve.type)` of the inline curve render loop
(`part_002` lines 1029-1042): all four branches use the defaulted
coefficient, the `logarithm` branch is only reached for `x > 0` because
of the `continue` guard. -/
noncomputable def curveYrender (c : Curve) (x : ℝ) : ℝ :=
  if c.type = "linear" then coefD c * x
  else if c.type = "quadratic" then coefD c * x * x
  else if c.type = "logarithm" then coefD c * Real.log x / Real.log (baseD c)
  else if c.type = "exponential" then coefD c * Real.rpow (baseD c) x
  else 0

/-- The curve render loop (`part_002` lines 1017-1045): walk the sampled
`x` values in order, `continue` (skip) when `x <= 0 && type ===
'logarithm'`, otherwise push `[x, y]`. -/
noncomputable def renderCurveSamples (c : Curve) : List (ℝ × ℝ) :=
  (renderLoopXs c.xRange.min c.xRange.max (renderStep c)).foldr
    (fun x acc =>
      if x ≤ 0 ∧ c.type = "logarithm" then acc else (x, curveYrender c x) :: acc)
    []

/-! ### Coordinate mapper (`part_002` lines 684-686, 766-805) -/

/-- SVG canvas width (`part_002` line 684). -/
def width : ℝ := 800

/-- SVG canvas height (`part_002` line 685). -/
def height : ℝ := 600

/-- SVG padding (`part_002` line 686). -/
def padding : ℝ := 80

/-- The axis-aligned data extent `(xMin, xMax, yMin, yMax)` computed by
the bounds section of the render effect; the scale construction is a
function of these four numbers only. -/
structure Bounds where
  xMin : ℝ
  xMax : ℝ
  yMin : ℝ
  yMax : ℝ

/-- `Math.max(xMax - xMin, 20)` (`part_002` line 767). -/
noncomputable def shapeWidth (b : Bounds) : ℝ := max (b.xMax - b.xMin) 20

/-- `Math.max(yMax - yMin, 20)` (`part_002` line 768). -/
noncomputable def shapeHeight (b : Bounds) : ℝ := max (b.yMax - b.yMin) 20

/-- `Math.max(shapeWidth, shapeHeight)` (`part_002` line 772). -/
noncomputable def maxRange (b : Bounds) : ℝ := max (shapeWidth b) (shapeHeight b)

/-- `(width - 2*padding) / (height - 2*padding)` (`part_002` line 775). -/
noncomputable def svgAspect : ℝ := (width - 2 * padding) / (height - 2 * padding)

/-- `Math.max(15, maxRange) * svgAspectRatio` (`part_002` line 779). -/
noncomputable def xDomainSize (b : Bounds) : ℝ := max 15 (maxRange b) * svgAspect

/-- `Math.max(15, maxRange)` (`part_002` line 780). -/
noncomputable def yDomainSize (b : Bounds) : ℝ := max 15 (maxRange b)

/-- `-xDomainSize / 2` (`part_002` line 783). -/
noncomputable def xDomainMin (b : Bounds) : ℝ := -(xDomainSize b) / 2

/-- `xDomainSize / 2` (`part_002` line 784). -/
noncomputable def xDomainMax (b : Bounds) : ℝ := xDomainSize b / 2

/-- `-yDomainSize / 2` (`part_002` line 785). -/
noncomputable def yDomainMin (b : Bounds) : ℝ := -(yDomainSize b) / 2

/-- `yDomainSize / 2` (`part_002` line 786). -/
noncomputable def yDomainMax (b : Bounds) : ℝ := yDomainSize b / 2

/-- `d3.scaleLinear().domain([d0,d1]).range([r0,r1])` applied to `t`. -/
noncomputable def d3LinearScale (d0 d1 r0 r1 t : ℝ) : ℝ :=
  r0 + (t - d0) / (d1 - d0) * (r1 - r0)

/-- `xScale` (`part_002` lines 789-791): domain
`[xDomainMin, xDomainMax]`, range `[padding, width - padding]`. -/
noncomputable def xScale (b : Bounds) (x : ℝ) : ℝ :=
  d3LinearScale (xDomainMin b) (xDomainMax b) padding (width - padding) x

/-- `yScale` (`part_002` lines 793-795): domain
`[yDomainMin, yDomainMax]`, range `[height - padding, padding]` (screen
`y` grows downward). -/
noncomputable def yScale (b : Bounds) (y : ℝ) : ℝ :=
  d3LinearScale (yDomainMin b) (yDomainMax b) (height - padding) padding y

/-- `xInverse` (`part_002` lines 798-800): domain
`[padding, width - padding]`, range `[xDomainMin, xDomainMax]`. -/
noncomputable def xInverse (b : Bounds) (s : ℝ) : ℝ :=
  d3LinearScale padding (width - padding) (xDomainMin b) (xDomainMax b) s

/-- `yInverse` (`part_002` lines 802-804): domain
`[height - padding, padding]`, range `[yDomainMin, yDomainMax]`. -/
noncomputable def yInverse (b : Bounds) (s : ℝ) : ℝ :=
  d3LinearScale (height - padding) padding (yDomainMin b) (yDomainMax b) s

/-! ### Zoom / pan / rotation interaction state
(`part_002` lines 109-115, 416-431, 483-492) -/

/-- The view-transform state touched by the zoom handlers: `zoomLevel`,
`panOffset` and `rotation` React states. Rational numbers suffice (all
updates are by rational constants). -/
structure ViewState where
  zoomLevel : ℚ
  panOffset : ℚ × ℚ
  rotation : ℚ

/-- Initial state: `zoomLevel = 1`, `panOffset = (0,0)`, `rotation = 0`
(`part_002` lines 110-115). -/
def initialView : ViewState := { zoomLevel := 1, panOffset := (0, 0), rotation := 0 }

/-- The zoom-affecting interactions: both wheel directions
(`handleWheel`, lines 483-492), the two buttons (`handleZoomIn` /
`handleZoomOut`, lines 416-423) and reset (`handleResetZoom`, lines
426-430). -/
inductive ZoomEvent
  | wheelUp
  | wheelDown
  | zoomIn
  | zoomOut
  | reset

/-- One zoom interaction step, exactly as the handlers write the React
states: wheel ticks move the zoom by `0.1`, buttons by `0.2`, always
clamped into `[0.5, 3]`; reset restores zoom `1`, pan `(0,0)` and
rotation `0`. -/
def applyZoomEvent (e : ZoomEvent) (s : ViewState) : ViewState :=
  match e with
  | .wheelUp => { s with zoomLevel := min (s.zoomLevel + 1/10) 3 }
  | .wheelDown => { s with zoomLevel := max (s.zoomLevel - 1/10) (1/2) }
  | .zoomIn => { s with zoomLevel := min (s.zoomLevel + 1/5) 3 }
  | .zoomOut => { s with zoomLevel := max (s.zoomLevel - 1/5) (1/2) }
  | .reset => { zoomLevel := 1, panOffset := (0, 0), rotation := 0 }

/-- A whole interaction sequence, applied left to right. -/
def applyZoomEvents (es : List ZoomEvent) (s : ViewState) : ViewState :=
  es.foldl (fun s e => applyZoomEvent e s) s

/-! ### Reference resolution and line rendering
(`part_002` lines 1084-1165) -/

/-- `points.find(p => p.label === lbl)`. -/
def findPoint (pts : List Point) (lbl : String) : Option Point :=
  pts.find? fun p => p.label == lbl

/-- A drawn segment primitive, identified by its two endpoint data
coordinates (the SVG element applies `xScale`/`yScale` to these). -/
structure Segment where
  p1 : ℝ × ℝ
  p2 : ℝ × ℝ

/-- The body of the line render loop for a single line (`part_002`
lines 1085-1108): resolve both labels and emit one segment when both
resolve, nothing otherwise. -/
def segmentsOfLine (pts : List Point) (l : Line) : List Segment :=
  match findPoint pts l.start, findPoint pts l.«end» with
  | some s, some e => [{ p1 := (s.x, s.y), p2 := (e.x, e.y) }]
  | _, _ => []

/-- `actualData.lines.forEach(...)` (`part_002` line 1084): segments are
appended in order, unresolved lines contribute nothing. -/
def renderSegments (pts : List Point) : List Line → List Segment
  | [] => []
  | l :: ls => segmentsOfLine pts l ++ renderSegments pts ls

/-! ### Angle arc derivation (`part_002` lines 1167-1302) -/

/-- `Math.atan2 y x`, embedded as the principal argument of the complex
number `x + y·i`: range `(-π, π]`, value `0` at the origin — the same
case analysis as JavaScript `atan2` (signed zeros are not modelled). -/
noncomputable def atan2 (y x : ℝ) : ℝ := Complex.arg ⟨x, y⟩

/-- The two sequential corrections applied to `angleDiff` (`part_002`
lines 1190-1192 and 1411-1413):
`if (d > π) d -= 2π; if (d < -π) d += 2π;`.  For inputs in `(-2π, 2π)`
the result lies in `[-π, π]`; note that an input of exactly `-π` is
kept at `-π` (it is not mapped to `π`). -/
noncomputable def normalizeDiff (d : ℝ) : ℝ :=
  let d1 := if Real.pi < d then d - 2 * Real.pi else d
  if d1 < -Real.pi then d1 + 2 * Real.pi else d1

/-- The rotation offset `angle.rotation ? angle.rotation*π/180 : 0`
(`part_002` lines 1211-1213). -/
noncomputable def rotOffset (rot : Option ℝ) : ℝ :=
  match rot with
  | some r => r * Real.pi / 180
  | none => 0

/-- The angle arc derivation (`part_002` lines 1174-1213) as a function
of the three resolved points, the authoritative `value` (degrees) and
the optional `rotation`: returns the pair
`(adjustedStartAngle, adjustedEndAngle)` used to draw the arc. -/
noncomputable def angleArcAngles (v s e : ℝ × ℝ) (value : ℝ) (rot : Option ℝ) : ℝ × ℝ :=
  let startAngle := atan2 (s.2 - v.2) (s.1 - v.1)
  let endAngle := atan2 (e.2 - v.2) (e.1 - v.1)
  let angleDiff := normalizeDiff (endAngle - startAngle)
  let actualEndAngle :=
    startAngle + (if 0 < angleDiff then value * Real.pi / 180 else -(value * Real.pi / 180))
  (startAngle + rotOffset rot, actualEndAngle + rotOffset rot)

/-- The end-angle formula stated by the specification, which normalizes
the raw `atan2` difference into the half-open interval `(-π, π]` (so an
exact difference of `-π` becomes `π`, i.e. counter-clockwise).  This
definition follows the spec's words, for comparison with
`angleArcAngles`. -/
noncomputable def specNormalizeDiff (d : ℝ) : ℝ :=
  if d ≤ -Real.pi then d + 2 * Real.pi
  else if Real.pi < d then d - 2 * Real.pi
  else d

/-- The displayed end angle as described by the specification sentence:
like `angleArcAngles` but with the `(-π, π]` normalization. -/
noncomputable def claimedEndAngle (v s e : ℝ × ℝ) (value : ℝ) (rot : Option ℝ) : ℝ :=
  let startAngle := atan2 (s.2 - v.2) (s.1 - v.1)
  let endAngle := atan2 (e.2 - v.2) (e.1 - v.1)
  let angleDiff := specNormalizeDiff (endAngle - startAngle)
  startAngle + (if 0 < angleDiff then value * Real.pi / 180 else -(value * Real.pi / 180)) +
    rotOffset rot

/-- The two kinds of angle mark the renderer can draw. -/
inductive AngleMark
  | rightAngleGlyph
  | genericArc
deriving DecidableEq

/-- The exact rational value of the IEEE-754 double denoted by the
JavaScript literal `0.1` in the comparison
`Math.abs(angle.value - 90) < 0.1` (`part_002` line 1218):
`3602879701896397 · 2⁻⁵⁵ ≈ 0.10000000000000000555`. -/
noncomputable def double01 : ℝ := 3602879701896397 / 2 ^ 55

/-- The exact rational value of the IEEE-754 double denoted by the
literal `89.9`: `3163075050785997 · 2⁻⁴⁵ ≈ 89.90000000000000568` —
this, not the real number 89.9, is what the program stores in
`angle.value` for that input. -/
noncomputable def double899 : ℝ := 3163075050785997 / 2 ^ 45

/-- The exact rational value of the IEEE-754 double denoted by the
literal `90.1`: `3170111925203763 · 2⁻⁴⁵ ≈ 90.09999999999999432`. -/
noncomputable def double901 : ℝ := 3170111925203763 / 2 ^ 45

/-- Which mark the angle render loop draws for one angle (`part_002`
lines 1168-1302): nothing when a label fails to resolve or `showValue`
is false; the right-angle glyph when `Math.abs(angle.value - 90) < 0.1`
in IEEE-754 double arithmetic; a generic circular arc otherwise.  The
double subtraction `value - 90` is exact for every double `value` in
`[45, 180]` (Sterbenz), and for `value` outside that range the exact
difference exceeds `45`, so rounding never changes the branch: the
double comparison coincides with the exact real comparison against the
stored epsilon `double01` used here. -/
noncomputable def angleMarkKind (pts : List Point) (a : Angle) : Option AngleMark :=
  match findPoint pts a.vertex, findPoint pts a.start, findPoint pts a.«end» with
  | some _, some _, some _ =>
    if a.showValue then
      if |a.value - 90| < double01 then some AngleMark.rightAngleGlyph
      else some AngleMark.genericArc
    else none
  | _, _, _ => none

/-! ### Point-anchored circular arcs (`part_002` lines 1369-1447) -/

/-- The 2-D cross product of the two center-to-anchor vectors
(`part_002` lines 1396-1404). -/
def cross2 (c s e : ℝ × ℝ) : ℝ :=
  (s.1 - c.1) * (e.2 - c.2) - (s.2 - c.2) * (e.1 - c.1)

/-- The quantities derived for a point-anchored arc. -/
structure PointArcData where
  avgRadius : ℝ
  sweepFlag : ℕ
  largeArcFlag : ℕ

/-- The point-anchored arc branch (`part_002` lines 1369-1420) as a
function of the resolved center, start and end points: the two
anchor-to-center distances are averaged into the effective radius, the
SVG sweep flag is `0` exactly for a positive cross product (`crossProduct
> 0 ? 0 : 1`; with the y-inverting `yScale`, sweep flag `0` renders
counter-clockwise), and the large-arc flag compares the normalized
angular difference with `π`. -/
noncomputable def pointArcData (c s e : ℝ × ℝ) : PointArcData :=
  let startRadius := Real.sqrt ((s.1 - c.1) ^ 2 + (s.2 - c.2) ^ 2)
  let endRadius := Real.sqrt ((e.1 - c.1) ^ 2 + (e.2 - c.2) ^ 2)
  let startAngle := atan2 (s.2 - c.2) (s.1 - c.1)
  let endAngle := atan2 (e.2 - c.2) (e.1 - c.1)
  let crossProduct := (s.1 - c.1) * (e.2 - c.2) - (s.2 - c.2) * (e.1 - c.1)
  let angleDiff := normalizeDiff (endAngle - startAngle)
  { avgRadius := (startRadius + endRadius) / 2
    sweepFlag := if 0 < crossProduct then 0 else 1
    largeArcFlag := if Real.pi < |angleDiff| then 1 else 0 }

/-- Euclidean distance of two points in the plane, written the way the
source computes the anchor radii (`Math.sqrt(Math.pow(..,2) + ...)`). -/
noncomputable def dist2 (p q : ℝ × ℝ) : ℝ :=
  Real.sqrt ((p.1 - q.1) ^ 2 + (p.2 - q.2) ^ 2)

/-! ### Drag interaction (`part_002` lines 1660-1701) -/

/-- The `drag` callback of `dragHandler` (`part_002` lines 1665-1696):
convert the pointer's SVG coordinates through `xInverse`/`yInverse` and
emit a replacement scene in which only point `idx` has its `x`/`y`
overwritten.  Out-of-range indices leave the scene untouched (the guard
`idx >= 0 && idx < actualData.points.length`). -/
noncomputable def dragMove (g : GeometryData) (b : Bounds) (idx : ℕ) (sx sy : ℝ) :
    GeometryData :=
  match g.points[idx]? with
  | some p =>
      { g with points := g.points.set idx { p with x := xInverse b sx, y := yInverse b sy } }
  | none => g

/-! ### Point deletion (`part_002` lines 309-334) -/

/-- `handleDeletePoint` (`part_002` lines 309-334): look up the deleted
point's label, drop every line whose `start` or `end` is that label,
every angle whose `vertex`, `start` or `end` is that label, and every
circle whose `center` is that label; remove the point itself by index.
Circles are only filtered on `center` — `startPoint`/`endPoint`
references are not examined.  (For an out-of-range index the source
would fault reading `.label`; that case is modelled as a no-op and
excluded by hypothesis in the theorems.) -/
def handleDeletePoint (g : GeometryData) (index : ℕ) : GeometryData :=
  match g.points[index]? with
  | none => g
  | some dp =>
    let deletedLabel := dp.label
    { g with
      points := g.points.eraseIdx index
      lines := g.lines.filter fun l => l.start != deletedLabel && l.«end» != deletedLabel
      angles := g.angles.filter fun a =>
        a.vertex != deletedLabel && a.start != deletedLabel && a.«end» != deletedLabel
      circles := g.circles.filter fun c => c.center != deletedLabel }

/-! ### Concrete scenes used by the witness theorems -/

/-- A small concrete scene: two points, one segment, and one circle
whose `center` is `"B"` but whose `startPoint` anchor is `"A"`. -/
noncomputable def sceneA : GeometryData where
  points := [⟨0, 0, "A", none⟩, ⟨1, 0, "B", none⟩]
  lines := [⟨"A", "B", none, none, none⟩]
  angles := []
  circles := [⟨"B", 1, none, none, none, none, none, none, some "A", none⟩]
  curves := []

/-- A concrete logarithm curve over `[-1, 1]` with two requested sample
points (so the render loop visits `x = -1, 0, 1`). -/
def logCurve : Curve where
  type := "logarithm"
  xRange := { min := -1, max := 1 }
  points := 2

/-! ## Theorems -/

/-- C1: for the curve `type=quadratic, coefficient=2, xRange={min:0,max:2},
points=3`, the curve sampler `generateCurvePoints` produces exactly the
ordered samples `(0,0), (1,2), (2,8)` — stepping `x` from `xRange.min`
to `xRange.max` inclusive. -/
theorem curve_sampling_determinism :
    generateCurvePoints
        { type := "quadratic", coefficient := some 2, xRange := { min := 0, max := 2 },
          points := 3 } =
      [{ x := 0, y := 0, label := "" }, { x := 1, y := 2, label := "" },
       { x := 2, y := 8, label := "" }] := by
  simp [generateCurvePoints, numPointsD, curveYgen, coefD, baseD, List.range_succ]
  norm_num

/-- C3: for every bounds input, the coordinate mapper maps one data unit
to the same pixel distance on both axes
(`|xScale(1)-xScale(0)| = |yScale(1)-yScale(0)|`), with the domain
derived from `max(15, max(shapeWidth, shapeHeight))` adjusted by the
canvas aspect ratio and centered at the data origin
(`xDomainMin = -xDomainMax`, `yDomainMin = -yDomainMax`). -/
theorem square_grid_equal_scale (b : Bounds) :
    |xScale b 1 - xScale b 0| = |yScale b 1 - yScale b 0| ∧
    xDomainMin b = -(xDomainMax b) ∧ yDomainMin b = -(yDomainMax b) ∧
    xDomainSize b = max 15 (max (shapeWidth b) (shapeHeight b)) * svgAspect ∧
    yDomainSize b = max 15 (max (shapeWidth b) (shapeHeight b)) := by
  have hM : (0 : ℝ) < max 15 (maxRange b) :=
    lt_of_lt_of_le (by norm_num) (le_max_left _ _)
  have hM' : max 15 (maxRange b) ≠ 0 := ne_of_gt hM
  have hx : xScale b 1 - xScale b 0 = 440 / max 15 (maxRange b) := by
    unfold xScale d3LinearScale xDomainMin xDomainMax xDomainSize svgAspect width height padding
    field_simp
    ring
  have hy : yScale b 1 - yScale b 0 = -(440 / max 15 (maxRange b)) := by
    unfold yScale d3LinearScale yDomainMin yDomainMax yDomainSize height padding
    field_simp
    ring
  refine ⟨?_, ?_, ?_, rfl, rfl⟩
  · rw [hx, hy, abs_neg]
  · unfold xDomainMin xDomainMax
    ring
  · unfold yDomainMin yDomainMax
    ring

/-- Any single zoom interaction keeps the zoom factor inside `[0.5, 3]`. -/
theorem zoom_step_bounds (e : ZoomEvent) (s : ViewState)
    (h1 : 1/2 ≤ s.zoomLevel) (h2 : s.zoomLevel ≤ 3) :
    1/2 ≤ (applyZoomEvent e s).zoomLevel ∧ (applyZoomEvent e s).zoomLevel ≤ 3 := by
  cases e <;> simp only [applyZoomEvent] <;> constructor
  all_goals
    first
      | exact le_min (by linarith) (by norm_num)
      | exact min_le_right _ _
      | exact le_max_right _ _
      | exact max_le (by linarith) (by norm_num)
      | norm_num

/-- Any sequence of zoom interactions keeps the zoom factor inside
`[0.5, 3]`. -/
theorem zoom_events_bounds (es : List ZoomEvent) (s : ViewState)
    (h1 : 1/2 ≤ s.zoomLevel) (h2 : s.zoomLevel ≤ 3) :
    1/2 ≤ (applyZoomEvents es s).zoomLevel ∧ (applyZoomEvents es s).zoomLevel ≤ 3 := by
  induction es generalizing s with
  | nil => exact ⟨h1, h2⟩
  | cons e es ih =>
    obtain ⟨g1, g2⟩ := zoom_step_bounds e s h1 h2
    simpa [applyZoomEvents] using ih (applyZoomEvent e s) g1 g2

/-- C9: starting from the initial view, every sequence of wheel,
zoom-in, zoom-out and reset interactions keeps the zoom factor within
`[0.5, 3]`; each wheel tick moves the factor by `0.1` and each button
press by `0.2` (clamped into that range), and reset restores
`zoom = 1`, `pan = (0,0)`, `rotation = 0`. -/
theorem zoom_clamped :
    (∀ es : List ZoomEvent,
      1/2 ≤ (applyZoomEvents es initialView).zoomLevel ∧
        (applyZoomEvents es initialView).zoomLevel ≤ 3) ∧
    (∀ s : ViewState, applyZoomEvent ZoomEvent.reset s = initialView) ∧
    (∀ s : ViewState,
      (applyZoomEvent ZoomEvent.wheelUp s).zoomLevel = min (s.zoomLevel + 1/10) 3) ∧
    (∀ s : ViewState,
      (applyZoomEvent ZoomEvent.wheelDown s).zoomLevel = max (s.zoomLevel - 1/10) (1/2)) ∧
    (∀ s : ViewState,
      (applyZoomEvent ZoomEvent.zoomIn s).zoomLevel = min (s.zoomLevel + 1/5) 3) ∧
    (∀ s : ViewState,
      (applyZoomEvent ZoomEvent.zoomOut s).zoomLevel = max (s.zoomLevel - 1/5) (1/2)) :=
  ⟨fun es => zoom_events_bounds es initialView (by norm_num [initialView]) (by norm_num [initialView]),
    fun _ => rfl, fun _ => rfl, fun _ => rfl, fun _ => rfl, fun _ => rfl⟩

/-- C10: deleting the point at a valid index `i` removes that point and,
cascading, every line whose `start` or `end` equals the deleted point's
label, every angle whose `vertex`, `start` or `end` equals that label,
and every circle whose `center` equals that label; circles that
reference the deleted label only via `startPoint` or `endPoint` are
retained; curves are untouched. -/
theorem delete_point_cascade (g : GeometryData) (index : ℕ) (p : Point)
    (hp : g.points[index]? = some p) :
    (handleDeletePoint g index).points = g.points.eraseIdx index ∧
    (∀ l : Line, l ∈ (handleDeletePoint g index).lines ↔
      l ∈ g.lines ∧ l.start ≠ p.label ∧ l.«end» ≠ p.label) ∧
    (∀ a : Angle, a ∈ (handleDeletePoint g index).angles ↔
      a ∈ g.angles ∧ a.vertex ≠ p.label ∧ a.start ≠ p.label ∧ a.«end» ≠ p.label) ∧
    (∀ c : Circle, c ∈ (handleDeletePoint g index).circles ↔
      c ∈ g.circles ∧ c.center ≠ p.label) ∧
    (∀ c : Circle, c ∈ g.circles → c.center ≠ p.label →
      (c.startPoint = some p.label ∨ c.endPoint = some p.label) →
      c ∈ (handleDeletePoint g index).circles) ∧
    (handleDeletePoint g index).curves = g.curves := by
  refine ⟨?_, ?_, ?_, ?_, ?_, ?_⟩
  · simp [handleDeletePoint, hp]
  · intro l
    simp [handleDeletePoint, hp, List.mem_filter, and_assoc]
  · intro a
    simp [handleDeletePoint, hp, List.mem_filter, and_assoc]
  · intro c
    simp [handleDeletePoint, hp, List.mem_filter]
  · intro c hc hcen _
    simp [handleDeletePoint, hp, List.mem_filter, hc, hcen]
  · simp [handleDeletePoint, hp]

/-- C7: a line one of whose endpoint labels does not resolve to a point
of the scene produces no segment primitive, and the remaining lines
render exactly as they would without it (rendering is total — no error
is raised). -/
theorem unresolved_line_skipped (pts : List Point) (l : Line) (ls : List Line)
    (h : findPoint pts l.start = none ∨ findPoint pts l.«end» = none) :
    segmentsOfLine pts l = [] ∧
    renderSegments pts (l :: ls) = renderSegments pts ls := by
  have hseg : segmentsOfLine pts l = [] := by
    unfold segmentsOfLine
    rcases h with h | h
    · rw [h]
    · rw [h]
      cases findPoint pts l.start <;> rfl
  exact ⟨hseg, by simp [renderSegments, hseg]⟩

/-- C7 witness: in the scene `sceneA` (points `"A"`, `"B"`), the line
`{start:"A", end:"Z"}` is skipped and the remaining line still renders. -/
theorem unresolved_line_skipped_witness :
    (findPoint sceneA.points "A" = none ∨ findPoint sceneA.points "Z" = none) ∧
    (segmentsOfLine sceneA.points ⟨"A", "Z", none, none, none⟩ = [] ∧
      renderSegments sceneA.points (⟨"A", "Z", none, none, none⟩ :: sceneA.lines) =
        renderSegments sceneA.points sceneA.lines) :=
  ⟨Or.inr rfl,
    unresolved_line_skipped sceneA.points ⟨"A", "Z", none, none, none⟩ sceneA.lines
      (Or.inr rfl)⟩

/-- C8: dragging the point at a valid index `idx` to screen position
`(sx, sy)` produces a scene whose point `idx` has coordinates
`(xInverse sx, yInverse sy)` (label and visibility kept), while every
other point and all lines, angles, circles and curves are structurally
unchanged. -/
theorem drag_updates_single_point (g : GeometryData) (b : Bounds) (idx : ℕ)
    (sx sy : ℝ) (p : Point) (hp : g.points[idx]? = some p) :
    (dragMove g b idx sx sy).points[idx]? =
      some { p with x := xInverse b sx, y := yInverse b sy } ∧
    (∀ j : ℕ, j ≠ idx → (dragMove g b idx sx sy).points[j]? = g.points[j]?) ∧
    (dragMove g b idx sx sy).lines = g.lines ∧
    (dragMove g b idx sx sy).angles = g.angles ∧
    (dragMove g b idx sx sy).circles = g.circles ∧
    (dragMove g b idx sx sy).curves = g.curves := by
  have hlt : idx < g.points.length := (List.getElem?_eq_some.mp hp).1
  refine ⟨?_, ?_, ?_, ?_, ?_, ?_⟩
  · simp only [dragMove, hp]
    exact List.getElem?_set_self hlt
  · intro j hj
    simp only [dragMove, hp]
    exact List.getElem?_set_ne (fun hij => hj hij.symm)
  · simp [dragMove, hp]
  · simp [dragMove, hp]
  · simp [dragMove, hp]
  · simp [dragMove, hp]

/-- C8 witness: dragging point 0 of `sceneA` to screen position
`(100, 200)` with the default `±10` bounds. -/
theorem drag_updates_single_point_witness :
    sceneA.points[0]? = some ⟨0, 0, "A", none⟩ ∧
    ((dragMove sceneA ⟨-10, 10, -10, 10⟩ 0 100 200).points[0]? =
      some ⟨xInverse ⟨-10, 10, -10, 10⟩ 100, yInverse ⟨-10, 10, -10, 10⟩ 200, "A", none⟩ ∧
    (∀ j : ℕ, j ≠ 0 →
      (dragMove sceneA ⟨-10, 10, -10, 10⟩ 0 100 200).points[j]? = sceneA.points[j]?) ∧
    (dragMove sceneA ⟨-10, 10, -10, 10⟩ 0 100 200).lines = sceneA.lines ∧
    (dragMove sceneA ⟨-10, 10, -10, 10⟩ 0 100 200).angles = sceneA.angles ∧
    (dragMove sceneA ⟨-10, 10, -10, 10⟩ 0 100 200).circles = sceneA.circles ∧
    (dragMove sceneA ⟨-10, 10, -10, 10⟩ 0 100 200).curves = sceneA.curves) :=
  ⟨rfl, drag_updates_single_point sceneA ⟨-10, 10, -10, 10⟩ 0 100 200 ⟨0, 0, "A", none⟩ rfl⟩

/-- C10 witness: deleting point 0 (label `"A"`) of `sceneA`; the circle
centered at `"B"` referencing `"A"` only through `startPoint` is kept. -/
theorem delete_point_cascade_witness :
    sceneA.points[0]? = some ⟨0, 0, "A", none⟩ ∧
    ((handleDeletePoint sceneA 0).points = sceneA.points.eraseIdx 0 ∧
    (∀ l : Line, l ∈ (handleDeletePoint sceneA 0).lines ↔
      l ∈ sceneA.lines ∧ l.start ≠ "A" ∧ l.«end» ≠ "A") ∧
    (∀ a : Angle, a ∈ (handleDeletePoint sceneA 0).angles ↔
      a ∈ sceneA.angles ∧ a.vertex ≠ "A" ∧ a.start ≠ "A" ∧ a.«end» ≠ "A") ∧
    (∀ c : Circle, c ∈ (handleDeletePoint sceneA 0).circles ↔
      c ∈ sceneA.circles ∧ c.center ≠ "A") ∧
    (∀ c : Circle, c ∈ sceneA.circles → c.center ≠ "A" →
      (c.startPoint = some "A" ∨ c.endPoint = some "A") →
      c ∈ (handleDeletePoint sceneA 0).circles) ∧
    (handleDeletePoint sceneA 0).curves = sceneA.curves) :=
  ⟨rfl, delete_point_cascade sceneA 0 ⟨0, 0, "A", none⟩ rfl⟩

/-- `atan2 0 1 = 0` (the positive x-axis). -/
theorem atan2_zero_one : atan2 0 1 = 0 := by
  unfold atan2
  rw [show (⟨1, 0⟩ : ℂ) = 1 from by apply Complex.ext <;> simp]
  exact Complex.arg_one

/-- `atan2 1 0 = π/2` (the positive y-axis). -/
theorem atan2_one_zero : atan2 1 0 = Real.pi / 2 := by
  unfold atan2
  rw [show (⟨0, 1⟩ : ℂ) = Complex.I from by apply Complex.ext <;> simp]
  exact Complex.arg_I

/-- `atan2 (-1) 0 = -(π/2)` (the negative y-axis). -/
theorem atan2_neg_one_zero : atan2 (-1) 0 = -(Real.pi / 2) := by
  unfold atan2
  rw [show (⟨0, -1⟩ : ℂ) = -Complex.I from by apply Complex.ext <;> simp]
  exact Complex.arg_neg_I

/-- `atan2` has the range of the principal argument: `(-π, π]`. -/
theorem atan2_mem_range (y x : ℝ) : -Real.pi < atan2 y x ∧ atan2 y x ≤ Real.pi :=
  ⟨Complex.neg_pi_lt_arg _, Complex.arg_le_pi _⟩

/-- Unfolding of the angle arc derivation into its explicit formula. -/
theorem angleArcAngles_eval (v s e : ℝ × ℝ) (value : ℝ) (rot : Option ℝ) :
    angleArcAngles v s e value rot =
      (atan2 (s.2 - v.2) (s.1 - v.1) + rotOffset rot,
       atan2 (s.2 - v.2) (s.1 - v.1) +
         (if 0 < normalizeDiff (atan2 (e.2 - v.2) (e.1 - v.1) - atan2 (s.2 - v.2) (s.1 - v.1))
          then value * Real.pi / 180 else -(value * Real.pi / 180)) + rotOffset rot) := rfl

/-- C4 counterexample: for vertex `(0,0)`, start `(0,1)`, end `(0,-1)`,
value `90`, no rotation, the raw `atan2` difference is exactly `-π`; the
code keeps it at `-π` (clockwise, end angle `0`), while the claim's
`(-π,π]` normalization turns it into `π` (counter-clockwise, end angle
`π`) — so the displayed end angle differs from the claimed formula. -/
theorem angle_sweep_boundary_cex :
    (angleArcAngles (0, 0) (0, 1) (0, -1) 90 none).2 ≠
      claimedEndAngle (0, 0) (0, 1) (0, -1) 90 none := by
  have hpi := Real.pi_pos
  have hA : atan2 ((1 : ℝ) - 0) ((0 : ℝ) - 0) = Real.pi / 2 := by
    norm_num [atan2_one_zero]
  have hB : atan2 ((-1 : ℝ) - 0) ((0 : ℝ) - 0) = -(Real.pi / 2) := by
    norm_num [atan2_neg_one_zero]
  have hdiff : atan2 ((-1 : ℝ) - 0) ((0 : ℝ) - 0) - atan2 ((1 : ℝ) - 0) ((0 : ℝ) - 0) =
      -Real.pi := by
    rw [hA, hB]
    ring
  have hnorm : normalizeDiff (-Real.pi) = -Real.pi := by
    unfold normalizeDiff
    dsimp only
    rw [if_neg (show ¬Real.pi < -Real.pi by linarith),
      if_neg (show ¬(-Real.pi) < -Real.pi by linarith)]
  have hcode : (angleArcAngles ((0 : ℝ), (0 : ℝ)) (0, 1) (0, -1) 90 none).2 = 0 := by
    rw [angleArcAngles_eval]
    dsimp only
    rw [hdiff, hnorm, if_neg (by linarith), hA]
    simp [rotOffset]
    ring
  have hsn : specNormalizeDiff (-Real.pi) = Real.pi := by
    unfold specNormalizeDiff
    rw [if_pos le_rfl]
    ring
  have hspec : claimedEndAngle ((0 : ℝ), (0 : ℝ)) (0, 1) (0, -1) 90 none = Real.pi := by
    unfold claimedEndAngle
    dsimp only
    rw [hdiff, hsn, if_pos hpi, hA]
    simp [rotOffset]
    ring
  rw [hcode, hspec]
  exact Ne.symm Real.pi_ne_zero

/-- C4 (amended): the displayed arc end angle equals the start-ray
`atan2` angle rotated by the authoritative `value` (degrees) in the
rotational direction given by the sign of
`atan2(end-vertex) - atan2(start-vertex)` brought into `[-π, π]` by the
code's two sequential `2π`-corrections — a difference of exactly `-π` is
kept at `-π` (clockwise), not mapped to `π` — with the optional rotation
offset added to both ends; in particular for vertex `(0,0)`, start
`(1,0)`, end `(0,1)`, value `90`, the derived end angle is a
counter-clockwise `90°` sweep from the start ray. -/
theorem angle_sweep_derivation :
    (∀ (v s e : ℝ × ℝ) (value : ℝ) (rot : Option ℝ),
      angleArcAngles v s e value rot =
        (atan2 (s.2 - v.2) (s.1 - v.1) + rotOffset rot,
         atan2 (s.2 - v.2) (s.1 - v.1) +
           (if 0 < normalizeDiff
                (atan2 (e.2 - v.2) (e.1 - v.1) - atan2 (s.2 - v.2) (s.1 - v.1))
            then value * Real.pi / 180 else -(value * Real.pi / 180)) + rotOffset rot)) ∧
    (∀ y1 x1 y2 x2 : ℝ,
      -Real.pi ≤ normalizeDiff (atan2 y2 x2 - atan2 y1 x1) ∧
        normalizeDiff (atan2 y2 x2 - atan2 y1 x1) ≤ Real.pi) ∧
    normalizeDiff (-Real.pi) = -Real.pi ∧
    angleArcAngles (0, 0) (1, 0) (0, 1) 90 none = (0, Real.pi / 2) := by
  have hpi := Real.pi_pos
  refine ⟨fun v s e value rot => angleArcAngles_eval v s e value rot, ?_, ?_, ?_⟩
  · intro y1 x1 y2 x2
    obtain ⟨ha1, ha2⟩ := atan2_mem_range y1 x1
    obtain ⟨hb1, hb2⟩ := atan2_mem_range y2 x2
    unfold normalizeDiff
    dsimp only
    split_ifs <;> constructor <;> linarith
  · unfold normalizeDiff
    dsimp only
    rw [if_neg (show ¬Real.pi < -Real.pi by linarith),
      if_neg (show ¬(-Real.pi) < -Real.pi by linarith)]
  · have hS : atan2 ((0 : ℝ) - 0) ((1 : ℝ) - 0) = 0 := by
      norm_num [atan2_zero_one]
    have hE : atan2 ((1 : ℝ) - 0) ((0 : ℝ) - 0) = Real.pi / 2 := by
      norm_num [atan2_one_zero]
    have hnorm : normalizeDiff (Real.pi / 2 - 0) = Real.pi / 2 := by
      unfold normalizeDiff
      dsimp only
      rw [if_neg (show ¬Real.pi < Real.pi / 2 - 0 by linarith),
        if_neg (show ¬Real.pi / 2 - 0 < -Real.pi by linarith)]
      ring
    rw [angleArcAngles_eval]
    dsimp only
    rw [hS, hE, hnorm, if_pos (by linarith)]
    simp [rotOffset]
    ring

/-- C2: for every point-anchored arc, the effective radius is the
average of the two anchor points' distances to the center; the SVG sweep
flag is `0` exactly when the 2-D cross product of the two
center-to-point vectors is positive (sweep `0` renders counter-clockwise
under the y-inverting screen mapping); and the SVG large-arc flag is `1`
exactly when the absolute angular difference of the two anchors (the
`atan2` difference after the code's `±2π` normalization) exceeds `π`. -/
theorem point_anchored_arc_params (c s e : ℝ × ℝ) :
    (pointArcData c s e).avgRadius = (dist2 s c + dist2 e c) / 2 ∧
    ((pointArcData c s e).sweepFlag = 0 ↔ 0 < cross2 c s e) ∧
    ((pointArcData c s e).largeArcFlag = 1 ↔
      Real.pi <
        |normalizeDiff (atan2 (e.2 - c.2) (e.1 - c.1) - atan2 (s.2 - c.2) (s.1 - c.1))|) := by
  refine ⟨rfl, ?_, ?_⟩
  · unfold pointArcData cross2
    dsimp only
    split_ifs with h
    · simp [h]
    · simp [h]
  · unfold pointArcData
    dsimp only
    split_ifs with h
    · simp [h]
    · simp [h]

/-- C5 counterexample: the program's stored value for the literal
`89.9` is the double `89.90000000000000568…` (`double899`); its distance
to `90` is `3518437208883 · 2⁻⁴⁵ ≈ 0.09999999999999432`, which is BELOW
the stored epsilon `0.10000000000000000555…` (`double01`), so
`Math.abs(89.9 - 90) < 0.1` is true in the program and an angle with
`value = 89.9` renders the right-angle glyph — not the generic arc the
claim asserts. -/
theorem right_angle_boundary_cex :
    angleMarkKind sceneA.points ⟨"A", "B", "B", double899, true, none⟩ =
      some AngleMark.rightAngleGlyph ∧
    angleMarkKind sceneA.points ⟨"A", "B", "B", double899, true, none⟩ ≠
      some AngleMark.genericArc := by
  have h1 : findPoint sceneA.points "A" = some ⟨0, 0, "A", none⟩ := rfl
  have h2 : findPoint sceneA.points "B" = some ⟨1, 0, "B", none⟩ := rfl
  have hlt : |double899 - (90 : ℝ)| < double01 := by
    rw [show double899 - (90 : ℝ) = -(3518437208883 / 2 ^ 45) from by norm_num [double899],
      abs_neg, abs_of_nonneg (by positivity : (0:ℝ) ≤ 3518437208883 / 2 ^ 45)]
    norm_num [double01]
  constructor
  · simp [angleMarkKind, h1, h2, hlt]
  · simp [angleMarkKind, h1, h2, hlt]

/-- C5 (amended): when all three labels of an angle resolve and
`showValue` is set, the right-angle glyph is drawn exactly when
`|value - 90|` is below the stored double epsilon
`0.1 = 3602879701896397·2⁻⁵⁵`, and the generic arc exactly otherwise;
`value = 90` is inside the epsilon, but so are the doubles stored for
`89.9` and `90.1` (each a distance `≈ 0.0999999999999943` from `90`),
while values at least the stored epsilon away — e.g. the exactly
representable `89.875` and `90.125` — render the generic arc on both
sides of the boundary. -/
theorem right_angle_threshold (pts : List Point) (a : Angle)
    (hv : (findPoint pts a.vertex).isSome = true)
    (hs : (findPoint pts a.start).isSome = true)
    (he : (findPoint pts a.«end»).isSome = true)
    (hshow : a.showValue = true) :
    (angleMarkKind pts a = some AngleMark.rightAngleGlyph ↔ |a.value - 90| < double01) ∧
    (angleMarkKind pts a = some AngleMark.genericArc ↔ ¬|a.value - 90| < double01) ∧
    |(90 : ℝ) - 90| < double01 ∧
    |double899 - 90| < double01 ∧
    |double901 - 90| < double01 ∧
    ¬|(89.875 : ℝ) - 90| < double01 ∧
    ¬|(90.125 : ℝ) - 90| < double01 := by
  obtain ⟨pv, hpv⟩ := Option.isSome_iff_exists.mp hv
  obtain ⟨ps, hps⟩ := Option.isSome_iff_exists.mp hs
  obtain ⟨pe, hpe⟩ := Option.isSome_iff_exists.mp he
  refine ⟨?_, ?_, ?_, ?_, ?_, ?_, ?_⟩
  · rcases lt_or_le |a.value - 90| double01 with h | h
    · simp [angleMarkKind, hpv, hps, hpe, hshow, h]
    · simp [angleMarkKind, hpv, hps, hpe, hshow, not_lt.mpr h, not_lt_of_le h]
  · rcases lt_or_le |a.value - 90| double01 with h | h
    · simp [angleMarkKind, hpv, hps, hpe, hshow, h]
    · simp [angleMarkKind, hpv, hps, hpe, hshow, not_lt.mpr h, not_lt_of_le h]
  · rw [show (90 : ℝ) - 90 = 0 by norm_num, abs_zero]
    norm_num [double01]
  · rw [show double899 - (90 : ℝ) = -(3518437208883 / 2 ^ 45) from by norm_num [double899],
      abs_neg, abs_of_nonneg (by positivity : (0:ℝ) ≤ 3518437208883 / 2 ^ 45)]
    norm_num [double01]
  · rw [show double901 - (90 : ℝ) = 3518437208883 / 2 ^ 45 from by norm_num [double901],
      abs_of_nonneg (by positivity : (0:ℝ) ≤ 3518437208883 / 2 ^ 45)]
    norm_num [double01]
  · rw [show (89.875 : ℝ) - 90 = -(1/8) by norm_num, abs_neg,
      abs_of_nonneg (by norm_num : (0:ℝ) ≤ 1/8)]
    norm_num [double01]
  · rw [show (90.125 : ℝ) - 90 = 1/8 by norm_num,
      abs_of_nonneg (by norm_num : (0:ℝ) ≤ 1/8)]
    norm_num [double01]

/-- C5 witness: in `sceneA` the angle `⟨"A","B","B", 90, true⟩` resolves
and is shown, so the theorem applies at it. -/
theorem right_angle_threshold_witness :
    (findPoint sceneA.points "A").isSome = true ∧
    (findPoint sceneA.points "B").isSome = true ∧
    ((angleMarkKind sceneA.points ⟨"A", "B", "B", 90, true, none⟩ =
        some AngleMark.rightAngleGlyph ↔ |(90 : ℝ) - 90| < double01) ∧
      (angleMarkKind sceneA.points ⟨"A", "B", "B", 90, true, none⟩ =
        some AngleMark.genericArc ↔ ¬|(90 : ℝ) - 90| < double01) ∧
      |(90 : ℝ) - 90| < double01 ∧
      |double899 - 90| < double01 ∧
      |double901 - 90| < double01 ∧
      ¬|(89.875 : ℝ) - 90| < double01 ∧
      ¬|(90.125 : ℝ) - 90| < double01) :=
  ⟨rfl, rfl,
    right_angle_threshold sceneA.points ⟨"A", "B", "B", 90, true, none⟩ rfl rfl rfl rfl⟩

/-- Folding the render loop's skip-or-push body equals filtering the
positive samples and mapping the curve function over them. -/
theorem foldr_skip_eq_filter_map (f : ℝ → ℝ) (l : List ℝ) :
    l.foldr (fun x acc => if x ≤ 0 then acc else (x, f x) :: acc) [] =
      (l.filter fun x => decide (0 < x)).map fun x => (x, f x) := by
  induction l with
  | nil => rfl
  | cons a l ih =>
    by_cases h : a ≤ 0
    · simp [List.filter_cons, h, not_lt.mpr h, ih]
    · simp [List.filter_cons, h, not_le.mp h, ih]

/-- C6: for every logarithm curve, the sample sequence produced by the
render loop is exactly the positive sampled `x` values paired with their
true `y` values — samples with `x ≤ 0` are dropped (a gap), never
emitted with a clamped `y`, and every emitted sample has `x > 0`. -/
theorem log_samples_dropped (c : Curve) (h : c.type = "logarithm") :
    renderCurveSamples c =
      ((renderLoopXs c.xRange.min c.xRange.max (renderStep c)).filter
          fun x => decide (0 < x)).map (fun x => (x, curveYrender c x)) ∧
    ∀ p ∈ renderCurveSamples c, 0 < p.1 := by
  have key : renderCurveSamples c =
      ((renderLoopXs c.xRange.min c.xRange.max (renderStep c)).filter
          fun x => decide (0 < x)).map (fun x => (x, curveYrender c x)) := by
    unfold renderCurveSamples
    have hfun : (fun (x : ℝ) acc =>
        if x ≤ 0 ∧ c.type = "logarithm" then acc else (x, curveYrender c x) :: acc) =
        fun x acc => if x ≤ 0 then acc else (x, curveYrender c x) :: acc := by
      funext x acc
      simp [h]
    rw [hfun, foldr_skip_eq_filter_map]
  refine ⟨key, ?_⟩
  intro p hp
  rw [key] at hp
  obtain ⟨x, hx, rfl⟩ := List.mem_map.mp hp
  exact of_decide_eq_true (List.mem_filter.mp hx).2

/-- C6 witness: the theorem applied to the concrete logarithm curve
`logCurve`. -/
theorem log_samples_dropped_witness :
    logCurve.type = "logarithm" ∧
    (renderCurveSamples logCurve =
      ((renderLoopXs logCurve.xRange.min logCurve.xRange.max (renderStep logCurve)).filter
          fun x => decide (0 < x)).map (fun x => (x, curveYrender logCurve x)) ∧
    ∀ p ∈ renderCurveSamples logCurve, 0 < p.1) :=
  ⟨rfl, log_samples_dropped logCurve rfl⟩

end GeometryRenderer
